import Mathlib

/-
Verification of the keyframe-extraction tool in extract_keyframes.py.

The script has two functions:

* save_frame(cap, frame_idx, out_path): reads the total frame count from
  the capture, fails if it is <= 0, clamps frame_idx into
  [0, total - 1], seeks, reads once, retries the read once on failure,
  then makes the parent directory (parents=True, exist_ok=True) and
  writes the image, returning the boolean result of imwrite.

* extract_keyframes(video_path, out_dir, threshold): obtains the scene
  list from the detector, returns early with a diagnostic when it is
  empty, opens a cv2.VideoCapture (raising when that fails), and for
  each scene (1-based index i) converts the boundary times to frame
  indices (start_f, end_f = end - 1 clamped to start_f,
  mid_f = (start_f + end_f) // 2), builds the three output paths
  scene_NNN_start.jpg / _mid.jpg / _end.jpg, calls save_frame three
  times, prints a per-scene line, and finally releases the capture and
  prints a summary.

The embedding below is a shallow model of exactly those two functions.
External collaborators are inputs: the detected scene list (pairs of
frame counts of the boundary timecodes), whether the capture opened,
the total frame count reported by the capture, an oracle stream giving
the result of each successive cap.read() call, and an oracle giving the
boolean result of cv2.imwrite per path.  Every observable side effect
(seek, read, mkdir, image write, capture open, capture release, console
diagnostic) is recorded in an event trace.  A read result can be
RRes.exn, modelling an unexpected exception raised by the backend,
which propagates (Except.error) exactly as a Python exception would.
-/

/-- A pathlib.Path of the shape `out_dir / file_name`, the only shape the
script builds; `dir` models `.parent`. -/
structure FPath where
  dir : String
  name : String
deriving DecidableEq, Repr

/-- The full textual path, directory and file name joined by a slash. -/
def FPath.toString (p : FPath) : String := p.dir ++ "/" ++ p.name

/-- Result of one `cap.read()` call: a decoded frame, a failed read
(`ret` false or frame None), or an unexpected raised exception. -/
inductive RRes where
  | ok
  | err
  | exn
deriving DecidableEq, Repr

/-- Observable side effects of the script, in order of occurrence. -/
inductive Ev where
  | seek (idx : Int)
  | read
  | mkdirP (parents existOk : Bool) (dir : String)
  | write (p : FPath)
  | openCap
  | release
  | diag
deriving DecidableEq, Repr

def isMkdirEv : Ev → Bool
  | .mkdirP _ _ _ => true
  | _ => false

def isWriteEv : Ev → Bool
  | .write _ => true
  | _ => false

def isSeekEv : Ev → Bool
  | .seek _ => true
  | _ => false

def isReadEv : Ev → Bool
  | .read => true
  | _ => false

def isReleaseEv : Ev → Bool
  | .release => true
  | _ => false

def isOpenEv : Ev → Bool
  | .openCap => true
  | _ => false

/-- Draw the next `cap.read()` result from the oracle stream; an
exhausted stream keeps answering with a failed read. -/
def nextRead : List RRes → RRes × List RRes
  | [] => (.err, [])
  | r :: t => (r, t)

/-- Model of `save_frame`.  Returns `Except.error` (the events so far)
when a read raised, otherwise the boolean result, the remaining read
stream, and the events of this call. -/
def save_frame (total frame_idx : Int) (out_path : FPath)
    (writeOk : FPath → Bool) (rs : List RRes) :
    Except (List Ev) (Bool × List RRes × List Ev) :=
  if total ≤ 0 then
    .ok (false, rs, [])
  else
    let idx := max 0 (min frame_idx (total - 1))
    let r1 := nextRead rs
    match r1.1 with
    | .exn => .error [.seek idx, .read]
    | .ok =>
        .ok (writeOk out_path, r1.2,
          [.seek idx, .read, .mkdirP true true out_path.dir, .write out_path])
    | .err =>
        let r2 := nextRead r1.2
        match r2.1 with
        | .exn => .error [.seek idx, .read, .read]
        | .ok =>
            .ok (writeOk out_path, r2.2,
              [.seek idx, .read, .read, .mkdirP true true out_path.dir,
               .write out_path])
        | .err => .ok (false, r2.2, [.seek idx, .read, .read])

/-- Python `f"{n:03d}"`: the decimal digits of `n`, zero-padded on the
left to a minimum width of 3. -/
def fmt03 (n : Nat) : String :=
  let s := Nat.repr n
  String.mk (List.replicate (3 - s.length) '0') ++ s

/-- Frame-index selection for one scene boundary, from the loop body of
`extract_keyframes`: `start_f = start_time.get_frames()`,
`end_f = end_time.get_frames() - 1` clamped up to `start_f`, and
`mid_f = (start_f + end_f) // 2` (Python floor division). -/
def selectRange (start_t end_t : Nat) : Int × Int × Int :=
  let start_f : Int := start_t
  let end_f0 : Int := (end_t : Int) - 1
  let end_f : Int := if end_f0 < start_f then start_f else end_f0
  let mid_f : Int := (start_f + end_f).fdiv 2
  (start_f, mid_f, end_f)

/-- Everything the per-scene loop iteration produces: the 1-based scene
index, the three selected frame indices, the three output paths, and
the three success flags printed by the script. -/
structure SceneOutcome where
  sceneIdx : Nat
  startF : Int
  midF : Int
  endF : Int
  pStart : FPath
  pMid : FPath
  pEnd : FPath
  okStart : Bool
  okMid : Bool
  okEnd : Bool
deriving DecidableEq, Repr

/-- The `for i, (start_time, end_time) in enumerate(scenes, start=1)`
loop: three `save_frame` calls per scene and a per-scene diagnostic
print, threading the read stream through.  An exception from a
`save_frame` propagates with the events accumulated so far. -/
def extractLoop (total : Int) (out_dir : String) (writeOk : FPath → Bool) :
    List (Nat × Nat) → Nat → List RRes →
    Except (List Ev) (List SceneOutcome × List RRes × List Ev)
  | [], _, rs => .ok ([], rs, [])
  | (st, en) :: rest, i, rs =>
    let sel := selectRange st en
    let base := "scene_" ++ fmt03 i
    let outStart : FPath := ⟨out_dir, base ++ "_start.jpg"⟩
    let outMid : FPath := ⟨out_dir, base ++ "_mid.jpg"⟩
    let outEnd : FPath := ⟨out_dir, base ++ "_end.jpg"⟩
    match save_frame total sel.1 outStart writeOk rs with
    | .error evs => .error evs
    | .ok (ok1, rs1, evs1) =>
      match save_frame total sel.2.1 outMid writeOk rs1 with
      | .error evs => .error (evs1 ++ evs)
      | .ok (ok2, rs2, evs2) =>
        match save_frame total sel.2.2 outEnd writeOk rs2 with
        | .error evs => .error (evs1 ++ evs2 ++ evs)
        | .ok (ok3, rs3, evs3) =>
          match extractLoop total out_dir writeOk rest (i + 1) rs3 with
          | .error evs => .error (evs1 ++ evs2 ++ evs3 ++ Ev.diag :: evs)
          | .ok (outs, rs4, evs4) =>
            .ok (⟨i, sel.1, sel.2.1, sel.2.2, outStart, outMid, outEnd,
                  ok1, ok2, ok3⟩ :: outs,
                 rs4, evs1 ++ evs2 ++ evs3 ++ Ev.diag :: evs4)

/-- How a run of `extract_keyframes` ends: early return on an empty
scene list, the RuntimeError when the capture does not open, normal
completion with the per-scene outcomes, or an unexpected exception
escaping the loop. -/
inductive RunResult where
  | noScenes
  | openError
  | done (outcomes : List SceneOutcome)
  | fault
deriving DecidableEq, Repr

/-- Model of `extract_keyframes`: branch on the empty scene list (print
and return, before any capture is opened), open the capture (raise if
that fails), print the scene/frame totals, run the per-scene loop, then
release the capture and print the summary. -/
def extract_keyframes (scenes : List (Nat × Nat)) (openOk : Bool)
    (total : Int) (out_dir : String) (writeOk : FPath → Bool)
    (rs : List RRes) : RunResult × List Ev :=
  match scenes with
  | [] => (.noScenes, [.diag])
  | _ :: _ =>
    if openOk = false then
      (.openError, [.openCap])
    else
      match extractLoop total out_dir writeOk scenes 1 rs with
      | .error evs => (.fault, .openCap :: .diag :: evs)
      | .ok (outs, _, evs) =>
        (.done outs, .openCap :: .diag :: (evs ++ [.release, .diag]))

/-- The outcome list of a normally completed run, empty otherwise. -/
def runOutcomes : RunResult → List SceneOutcome
  | .done outs => outs
  | _ => []

theorem selectRange_eq (s e : Nat) :
    selectRange s e =
      ((s : Int),
       ((s : Int) +
          (if (e : Int) - 1 < (s : Int) then (s : Int) else (e : Int) - 1)).fdiv 2,
       (if (e : Int) - 1 < (s : Int) then (s : Int) else (e : Int) - 1)) := rfl

/-- Claim C1 as stated is false on the code: the selector never clamps
against the total frame count reported by the capture, which comes from
a different library than the scene boundaries.  In a run with scene
boundary frame indices (0, 3) and a reported total of 1 frame, the
produced FrameRange has end_frame = 2, exceeding
total_frame_count - 1 = 0. -/
theorem C1_counterexample :
    (runOutcomes (extract_keyframes [(0, 3)] true 1 "images"
        (fun _ => true) []).fst).map SceneOutcome.endF = [2] ∧
    ¬ ((2 : Int) ≤ 1 - 1) := by decide

/-- Claim C1 (amended): for every FrameRange produced by the selector,
0 ≤ start_frame ≤ mid_frame ≤ end_frame holds unconditionally, and
end_frame ≤ total_frame_count - 1 holds provided the scene boundary is
consistent with the capture, i.e. the start boundary index is below the
total frame count and the exclusive end boundary index is at most the
total frame count. -/
theorem C1_ordering (start_t end_t : Nat) (total : Int)
    (h1 : (start_t : Int) < total) (h2 : (end_t : Int) ≤ total) :
    0 ≤ (selectRange start_t end_t).1 ∧
    (selectRange start_t end_t).1 ≤ (selectRange start_t end_t).2.1 ∧
    (selectRange start_t end_t).2.1 ≤ (selectRange start_t end_t).2.2 ∧
    (selectRange start_t end_t).2.2 ≤ total - 1 := by
  rw [selectRange_eq]
  dsimp only
  rw [Int.fdiv_eq_ediv _ (by norm_num)]
  have hs : (0 : Int) ≤ (start_t : Int) := Int.ofNat_nonneg start_t
  by_cases h : (end_t : Int) - 1 < (start_t : Int)
  · rw [if_pos h]
    omega
  · rw [if_neg h]
    omega

/-- Witness for C1_ordering at boundary (2, 5) with 10 total frames. -/
theorem C1_ordering_witness :
    0 ≤ (selectRange 2 5).1 ∧
    (selectRange 2 5).1 ≤ (selectRange 2 5).2.1 ∧
    (selectRange 2 5).2.1 ≤ (selectRange 2 5).2.2 ∧
    (selectRange 2 5).2.2 ≤ (10 : Int) - 1 :=
  C1_ordering 2 5 10 (by norm_num) (by norm_num)

/-- Claim C2: the selector computes start_frame as the index of the
start boundary, end_frame as the index of the end boundary minus one,
clamped up to start_frame when that is smaller, and mid_frame as the
floor of (start_frame + end_frame) / 2; in the degenerate case
(end index - 1 below start index) both end_frame and mid_frame equal
start_frame. -/
theorem C2_selector (start_t end_t : Nat) :
    (selectRange start_t end_t).1 = (start_t : Int) ∧
    (selectRange start_t end_t).2.2 =
      (if (end_t : Int) - 1 < (start_t : Int) then (start_t : Int)
       else (end_t : Int) - 1) ∧
    (selectRange start_t end_t).2.1 =
      ((selectRange start_t end_t).1 +
        (selectRange start_t end_t).2.2).fdiv 2 ∧
    ((end_t : Int) - 1 < (start_t : Int) →
      (selectRange start_t end_t).2.2 = (start_t : Int) ∧
      (selectRange start_t end_t).2.1 = (start_t : Int)) := by
  rw [selectRange_eq]
  refine ⟨rfl, rfl, rfl, fun h => ?_⟩
  rw [if_pos h]
  refine ⟨rfl, ?_⟩
  dsimp only
  rw [Int.fdiv_eq_ediv _ (by norm_num)]
  omega

/-- Witness for C2_selector at the degenerate boundary (4, 2): the
inner implication fires and yields end_frame = mid_frame = 4. -/
theorem C2_selector_witness :
    (selectRange 4 2).2.2 = ((4 : Nat) : Int) ∧
    (selectRange 4 2).2.1 = ((4 : Nat) : Int) :=
  (C2_selector 4 2).2.2.2 (by norm_num)

/-- The event trace of a `save_frame` call, in both the normal and the
exception-propagating case. -/
def sfEvents : Except (List Ev) (Bool × List RRes × List Ev) → List Ev
  | .error evs => evs
  | .ok (_, _, evs) => evs

/-- The indices of all seek events in a trace, in order. -/
def seekTargets : List Ev → List Int
  | [] => []
  | .seek i :: t => i :: seekTargets t
  | _ :: t => seekTargets t

/-- Claim C3: after a first failed read the read is retried exactly
once with no re-seek.  A transient failure followed by a successful
read (and a successful write) yields success; two consecutive failed
reads yield failure with the remaining read stream untouched (so no
further retry is ever attempted); in every case the trace of a
completed call holds at most two read events and at most one seek. -/
theorem C3_retry (total frame_idx : Int) (p : FPath) (w : FPath → Bool)
    (rest : List RRes) (h : 0 < total) (hw : w p = true) :
    save_frame total frame_idx p w (.err :: .ok :: rest) =
      .ok (true, rest,
        [.seek (max 0 (min frame_idx (total - 1))), .read, .read,
         .mkdirP true true p.dir, .write p]) ∧
    save_frame total frame_idx p w (.err :: .err :: rest) =
      .ok (false, rest,
        [.seek (max 0 (min frame_idx (total - 1))), .read, .read]) ∧
    (∀ rs : List RRes,
      (sfEvents (save_frame total frame_idx p w rs)).countP isReadEv ≤ 2 ∧
      (sfEvents (save_frame total frame_idx p w rs)).countP isSeekEv ≤ 1) := by
  have hne : ¬ total ≤ 0 := by omega
  refine ⟨by simp [save_frame, nextRead, hne, hw], by simp [save_frame, nextRead, hne], ?_⟩
  intro rs
  rcases rs with _ | ⟨r1, rs1⟩
  · simp [save_frame, nextRead, hne, sfEvents, isReadEv, isSeekEv, List.countP, List.countP.go]
  · cases r1
    · simp [save_frame, nextRead, hne, sfEvents, isReadEv, isSeekEv, List.countP, List.countP.go]
    · rcases rs1 with _ | ⟨r2, rs2⟩
      · simp [save_frame, nextRead, hne, sfEvents, isReadEv, isSeekEv, List.countP, List.countP.go]
      · cases r2 <;>
          simp [save_frame, nextRead, hne, sfEvents, isReadEv, isSeekEv, List.countP, List.countP.go]
    · simp [save_frame, nextRead, hne, sfEvents, isReadEv, isSeekEv, List.countP, List.countP.go]

/-- Witness for C3_retry: a 5-frame video, target index 2, a write that
succeeds; err-then-ok succeeds, err-then-err fails. -/
theorem C3_retry_witness :
    save_frame 5 2 ⟨"images", "a.jpg"⟩ (fun _ => true) [.err, .ok] =
      .ok (true, [],
        [.seek (max 0 (min 2 (5 - 1))), .read, .read,
         .mkdirP true true (FPath.mk "images" "a.jpg").dir,
         .write ⟨"images", "a.jpg"⟩]) ∧
    save_frame 5 2 ⟨"images", "a.jpg"⟩ (fun _ => true) [.err, .err] =
      .ok (false, [], [.seek (max 0 (min 2 (5 - 1))), .read, .read]) := by
  have h := C3_retry 5 2 ⟨"images", "a.jpg"⟩ (fun _ => true) [] (by norm_num) rfl
  exact ⟨h.1, h.2.1⟩

/-- Claim C4: the requested index is clamped into
[0, total_frame_count - 1] before the seek, so an index at or above the
total seeks exactly the last frame index total - 1 (no unhandled
fault), and a total frame count of 0 makes the call fail immediately
with no seek, no read, and no other side effect. -/
theorem C4_clamp (total frame_idx : Int) (p : FPath) (w : FPath → Bool)
    (rs : List RRes) :
    (0 < total → total ≤ frame_idx →
      seekTargets (sfEvents (save_frame total frame_idx p w rs)) =
        [total - 1]) ∧
    (total = 0 → save_frame total frame_idx p w rs = .ok (false, rs, [])) := by
  constructor
  · intro h0 hge
    have hne : ¬ total ≤ 0 := by omega
    have hidx : max 0 (min frame_idx (total - 1)) = total - 1 := by omega
    rcases rs with _ | ⟨r1, rs1⟩
    · simp [save_frame, nextRead, hne, hidx, sfEvents, seekTargets]
    · cases r1
      · simp [save_frame, nextRead, hne, hidx, sfEvents, seekTargets]
      · rcases rs1 with _ | ⟨r2, rs2⟩
        · simp [save_frame, nextRead, hne, hidx, sfEvents, seekTargets]
        · cases r2 <;> simp [save_frame, nextRead, hne, hidx, sfEvents, seekTargets]
      · simp [save_frame, nextRead, hne, hidx, sfEvents, seekTargets]
  · intro h0
    simp [save_frame, h0]

theorem save_frame_noExn (total frame_idx : Int) (p : FPath)
    (w : FPath → Bool) {rs : List RRes} (h : RRes.exn ∉ rs) :
    ∃ b rs2 evs, save_frame total frame_idx p w rs = .ok (b, rs2, evs) ∧
      RRes.exn ∉ rs2 ∧
      evs.countP isReleaseEv = 0 ∧ evs.countP isOpenEv = 0 ∧
      (b = true → w p = true) := by
  by_cases h0 : total ≤ 0
  · exact ⟨false, rs, [], by simp [save_frame, h0], h, rfl, rfl, by simp⟩
  · rcases rs with _ | ⟨r1, t⟩
    · refine ⟨false, [],
        [.seek (max 0 (min frame_idx (total - 1))), .read, .read],
        by simp [save_frame, nextRead, h0], by simp, ?_, ?_, by simp⟩ <;>
        simp [List.countP_cons, isReleaseEv, isOpenEv]
    · have ht : RRes.exn ∉ t := fun hm => h (List.mem_cons_of_mem _ hm)
      cases r1 with
      | exn => exact absurd (List.mem_cons_self _ _) h
      | ok =>
        refine ⟨w p, t,
          [.seek (max 0 (min frame_idx (total - 1))), .read,
           .mkdirP true true p.dir, .write p],
          by simp [save_frame, nextRead, h0], ht, ?_, ?_, fun hb => hb⟩ <;>
          simp [List.countP_cons, isReleaseEv, isOpenEv]
      | err =>
        rcases t with _ | ⟨r2, t2⟩
        · refine ⟨false, [],
            [.seek (max 0 (min frame_idx (total - 1))), .read, .read],
            by simp [save_frame, nextRead, h0], by simp, ?_, ?_, by simp⟩ <;>
            simp [List.countP_cons, isReleaseEv, isOpenEv]
        · have ht2 : RRes.exn ∉ t2 := fun hm => ht (List.mem_cons_of_mem _ hm)
          cases r2 with
          | exn => exact absurd (List.mem_cons_self _ _) ht
          | ok =>
            refine ⟨w p, t2,
              [.seek (max 0 (min frame_idx (total - 1))), .read, .read,
               .mkdirP true true p.dir, .write p],
              by simp [save_frame, nextRead, h0], ht2, ?_, ?_,
              fun hb => hb⟩ <;>
              simp [List.countP_cons, isReleaseEv, isOpenEv]
          | err =>
            refine ⟨false, t2,
              [.seek (max 0 (min frame_idx (total - 1))), .read, .read],
              by simp [save_frame, nextRead, h0], ht2, ?_, ?_, by simp⟩ <;>
              simp [List.countP_cons, isReleaseEv, isOpenEv]

/-- Witness for C4_clamp: requesting index 9 of a 3-frame video seeks
frame 2, and a 0-frame video fails with no side effects. -/
theorem C4_clamp_witness :
    seekTargets (sfEvents (save_frame 3 9 ⟨"images", "b.jpg"⟩
        (fun _ => true) [.ok])) = [(3 : Int) - 1] ∧
    save_frame 0 9 ⟨"images", "b.jpg"⟩ (fun _ => true) [.ok] =
      .ok (false, [.ok], []) := by
  have h := C4_clamp 3 9 ⟨"images", "b.jpg"⟩ (fun _ => true) [.ok]
  have h0 := C4_clamp 0 9 ⟨"images", "b.jpg"⟩ (fun _ => true) [.ok]
  exact ⟨h.1 (by norm_num) (by norm_num), h0.2 rfl⟩

theorem extractLoop_spec (total : Int) (out_dir : String) (w : FPath → Bool) :
    ∀ (scenes : List (Nat × Nat)) (i : Nat) (rs : List RRes),
      RRes.exn ∉ rs →
      ∃ outs rs2 evs,
        extractLoop total out_dir w scenes i rs = .ok (outs, rs2, evs) ∧
        outs.length = scenes.length ∧
        RRes.exn ∉ rs2 ∧
        evs.countP isReleaseEv = 0 ∧
        evs.countP isOpenEv = 0 ∧
        ((∀ q, w q = false) →
          ∀ o ∈ outs, o.okStart = false ∧ o.okMid = false ∧ o.okEnd = false) ∧
        (∀ j (hj : j < outs.length),
          (outs.get ⟨j, hj⟩).sceneIdx = i + j ∧
          (outs.get ⟨j, hj⟩).pStart =
            ⟨out_dir, "scene_" ++ fmt03 (i + j) ++ "_start.jpg"⟩ ∧
          (outs.get ⟨j, hj⟩).pMid =
            ⟨out_dir, "scene_" ++ fmt03 (i + j) ++ "_mid.jpg"⟩ ∧
          (outs.get ⟨j, hj⟩).pEnd =
            ⟨out_dir, "scene_" ++ fmt03 (i + j) ++ "_end.jpg"⟩) := by
  intro scenes
  induction scenes with
  | nil =>
    intro i rs h
    refine ⟨[], rs, [], rfl, rfl, h, rfl, rfl, by simp, ?_⟩
    intro j hj
    exact absurd hj (by simp)
  | cons hd rest ih =>
    intro i rs h
    obtain ⟨st, en⟩ := hd
    obtain ⟨b1, rs1, evs1, he1, hx1, hrel1, hop1, hw1⟩ :=
      save_frame_noExn total (selectRange st en).1
        ⟨out_dir, "scene_" ++ fmt03 i ++ "_start.jpg"⟩ w h
    obtain ⟨b2, rs2, evs2, he2, hx2, hrel2, hop2, hw2⟩ :=
      save_frame_noExn total (selectRange st en).2.1
        ⟨out_dir, "scene_" ++ fmt03 i ++ "_mid.jpg"⟩ w hx1
    obtain ⟨b3, rs3, evs3, he3, hx3, hrel3, hop3, hw3⟩ :=
      save_frame_noExn total (selectRange st en).2.2
        ⟨out_dir, "scene_" ++ fmt03 i ++ "_end.jpg"⟩ w hx2
    obtain ⟨outs4, rs4, evs4, he4, hlen4, hx4, hrel4, hop4, hwf4, hget4⟩ :=
      ih (i + 1) rs3 hx3
    refine ⟨⟨i, (selectRange st en).1, (selectRange st en).2.1,
        (selectRange st en).2.2,
        ⟨out_dir, "scene_" ++ fmt03 i ++ "_start.jpg"⟩,
        ⟨out_dir, "scene_" ++ fmt03 i ++ "_mid.jpg"⟩,
        ⟨out_dir, "scene_" ++ fmt03 i ++ "_end.jpg"⟩, b1, b2, b3⟩ :: outs4,
      rs4, evs1 ++ evs2 ++ evs3 ++ Ev.diag :: evs4, ?_, ?_, hx4, ?_, ?_, ?_, ?_⟩
    · simp only [extractLoop, he1, he2, he3, he4]
    · simp [hlen4]
    · simp [List.countP_append, List.countP_cons, hrel1, hrel2, hrel3, hrel4,
        isReleaseEv]
    · simp [List.countP_append, List.countP_cons, hop1, hop2, hop3, hop4,
        isOpenEv]
    · intro hwf o ho
      rcases List.mem_cons.mp ho with rfl | hmem
      · have f1 : b1 = false := by
          cases b1
          · rfl
          · exact absurd (hw1 rfl) (by simp [hwf])
        have f2 : b2 = false := by
          cases b2
          · rfl
          · exact absurd (hw2 rfl) (by simp [hwf])
        have f3 : b3 = false := by
          cases b3
          · rfl
          · exact absurd (hw3 rfl) (by simp [hwf])
        exact ⟨f1, f2, f3⟩
      · exact hwf4 hwf o hmem
    · intro j hj
      cases j with
      | zero => simp
      | succ j =>
        have hj4 : j < outs4.length := by
          simp only [List.length_cons] at hj
          omega
        have hg := hget4 j hj4
        have hidx : i + 1 + j = i + (j + 1) := by omega
        rw [hidx] at hg
        exact hg

/-- Claim C5: provided no backend exception occurs, a run with a
non-empty scene list and a successfully opened capture always completes
normally with exactly one outcome record per scene, each carrying the
three role flags — read and write failures are recorded in the flags
and never abort the run; a capture that fails to open is the hard
failure. -/
theorem C5_outcomes (scenes : List (Nat × Nat)) (openOk : Bool)
    (total : Int) (out_dir : String) (w : FPath → Bool) (rs : List RRes)
    (hex : RRes.exn ∉ rs) :
    (scenes ≠ [] → openOk = true →
      ∃ outs,
        (extract_keyframes scenes openOk total out_dir w rs).fst =
          .done outs ∧
        outs.length = scenes.length) ∧
    (scenes ≠ [] → openOk = false →
      (extract_keyframes scenes openOk total out_dir w rs).fst =
        .openError) := by
  constructor
  · intro hne hopen
    obtain ⟨s, rest, rfl⟩ : ∃ s rest, scenes = s :: rest := by
      rcases scenes with _ | ⟨s, rest⟩
      · exact absurd rfl hne
      · exact ⟨s, rest, rfl⟩
    obtain ⟨outs, rs2, evs, he, hlen, -, -, -, -, -⟩ :=
      extractLoop_spec total out_dir w (s :: rest) 1 rs hex
    refine ⟨outs, ?_, hlen⟩
    simp [extract_keyframes, hopen, he]
  · intro hne hopen
    obtain ⟨s, rest, rfl⟩ : ∃ s rest, scenes = s :: rest := by
      rcases scenes with _ | ⟨s, rest⟩
      · exact absurd rfl hne
      · exact ⟨s, rest, rfl⟩
    simp [extract_keyframes, hopen]

/-- Witness for C5_outcomes: two scenes, every read failing (empty
oracle stream answers err), write failing everywhere; the run still
completes with two outcome records, and the same scenes with a capture
that does not open give the hard open failure. -/
theorem C5_outcomes_witness :
    (∃ outs,
      (extract_keyframes [(0, 3), (3, 6)] true 6 "images"
          (fun _ => false) []).fst = .done outs ∧
      outs.length = [(0, 3), (3, 6)].length) ∧
    (extract_keyframes [(0, 3), (3, 6)] false 6 "images"
        (fun _ => false) []).fst = .openError := by
  have h := C5_outcomes [(0, 3), (3, 6)] true 6 "images"
    (fun _ => false) [] (by simp)
  have h0 := C5_outcomes [(0, 3), (3, 6)] false 6 "images"
    (fun _ => false) [] (by simp)
  exact ⟨h.1 (by simp) rfl, h0.2 (by simp) rfl⟩

/-- Claim C6 as stated is false on the code: `cap.release()` is a plain
call at the end of the loop, not a scoped acquisition, so an unexpected
backend exception during extraction propagates out of
`extract_keyframes` with no release event in the trace.  Here the very
first read raises and the run aborts without releasing the capture. -/
theorem C6_counterexample :
    (extract_keyframes [(0, 9)] true 10 "images" (fun _ => true)
        [.exn]).fst = .fault ∧
    ((extract_keyframes [(0, 9)] true 10 "images" (fun _ => true)
        [.exn]).snd).countP isReleaseEv = 0 := by decide

/-- Claim C6 (amended): on every run that completes normally (non-empty
scene list, opened capture, no backend exception), the capture is
released exactly once; a run aborted by an unexpected exception skips
the release, because the code has no scoped acquisition around the
extraction loop. -/
theorem C6_release (scenes : List (Nat × Nat)) (total : Int)
    (out_dir : String) (w : FPath → Bool) (rs : List RRes)
    (hex : RRes.exn ∉ rs) (hne : scenes ≠ []) :
    ((extract_keyframes scenes true total out_dir w rs).snd).countP
      isReleaseEv = 1 := by
  obtain ⟨s, rest, rfl⟩ : ∃ s rest, scenes = s :: rest := by
    rcases scenes with _ | ⟨s, rest⟩
    · exact absurd rfl hne
    · exact ⟨s, rest, rfl⟩
  obtain ⟨outs, rs2, evs, he, -, -, hrel, -, -, -⟩ :=
    extractLoop_spec total out_dir w (s :: rest) 1 rs hex
  simp [extract_keyframes, he, List.countP_cons, List.countP_append,
    hrel, isReleaseEv]

/-- Witness for C6_release: a one-scene run with all reads succeeding
releases the capture exactly once. -/
theorem C6_release_witness :
    ((extract_keyframes [(0, 9)] true 10 "images" (fun _ => true)
        [.ok, .ok, .ok]).snd).countP isReleaseEv = 1 :=
  C6_release [(0, 9)] 10 "images" (fun _ => true) [.ok, .ok, .ok]
    (by simp) (by simp)

/-- Claim C7: an empty scene list makes the run print the diagnostic
and terminate normally at once — the resulting trace is a single
diagnostic event, with no capture open, no directory creation, and no
image write. -/
theorem C7_no_scenes (openOk : Bool) (total : Int) (out_dir : String)
    (w : FPath → Bool) (rs : List RRes) :
    extract_keyframes [] openOk total out_dir w rs =
      (.noScenes, [.diag]) ∧
    ([Ev.diag].countP isOpenEv = 0 ∧
     [Ev.diag].countP isWriteEv = 0 ∧
     [Ev.diag].countP isMkdirEv = 0) :=
  ⟨rfl, by decide⟩

/-- Claim C8: after a successful read, `save_frame` first ensures the
output directory exists — recursive and idempotent creation, i.e. mkdir
with parents and exist_ok both set — then writes the image, and its
result is exactly the boolean the write returns; at the run level a
write failure is recorded exactly like a read failure: every outcome
flag is false, yet the run still completes with one record per
scene. -/
theorem C8_write (total frame_idx : Int) (p : FPath) (w : FPath → Bool)
    (rest : List RRes) (h : 0 < total) :
    save_frame total frame_idx p w (.ok :: rest) =
      .ok (w p, rest,
        [.seek (max 0 (min frame_idx (total - 1))), .read,
         .mkdirP true true p.dir, .write p]) ∧
    (∀ (scenes : List (Nat × Nat)) (out_dir : String) (rs : List RRes),
      RRes.exn ∉ rs → scenes ≠ [] →
      ∃ outs,
        (extract_keyframes scenes true total out_dir
            (fun _ => false) rs).fst = .done outs ∧
        outs.length = scenes.length ∧
        ∀ o ∈ outs,
          o.okStart = false ∧ o.okMid = false ∧ o.okEnd = false) := by
  have hne : ¬ total ≤ 0 := by omega
  constructor
  · simp [save_frame, nextRead, hne]
  · intro scenes out_dir rs hex hs
    obtain ⟨s, rest2, rfl⟩ : ∃ s rest2, scenes = s :: rest2 := by
      rcases scenes with _ | ⟨s, rest2⟩
      · exact absurd rfl hs
      · exact ⟨s, rest2, rfl⟩
    obtain ⟨outs, rs2, evs, he, hlen, -, -, -, hwf, -⟩ :=
      extractLoop_spec total out_dir (fun _ => false) (s :: rest2) 1 rs hex
    exact ⟨outs, by simp [extract_keyframes, he], hlen,
      hwf (fun q => rfl)⟩

/-- Witness for C8_write: a successful read in a 4-frame video makes
the directory and attempts the write, and a two-scene run whose every
write fails still completes with both records all-false. -/
theorem C8_write_witness :
    save_frame 4 1 ⟨"images", "c.jpg"⟩ (fun _ => true) [.ok] =
      .ok (true, [],
        [.seek (max 0 (min 1 (4 - 1))), .read,
         .mkdirP true true (FPath.mk "images" "c.jpg").dir,
         .write ⟨"images", "c.jpg"⟩]) ∧
    (∃ outs,
      (extract_keyframes [(0, 2), (2, 4)] true 4 "images"
          (fun _ => false) [.ok, .ok, .ok, .ok, .ok, .ok]).fst =
        .done outs ∧
      outs.length = [(0, 2), (2, 4)].length ∧
      ∀ o ∈ outs,
        o.okStart = false ∧ o.okMid = false ∧ o.okEnd = false) := by
  have h := C8_write 4 1 ⟨"images", "c.jpg"⟩ (fun _ => true) [] (by norm_num)
  exact ⟨h.1, h.2 [(0, 2), (2, 4)] "images" [.ok, .ok, .ok, .ok, .ok, .ok]
    (by simp) (by simp)⟩

/-- Claim C9: in every completed run the scene with 1-based ordinal
j + 1 gets exactly the output paths out_dir/scene_NNN_start.jpg,
out_dir/scene_NNN_mid.jpg and out_dir/scene_NNN_end.jpg where NNN is
the ordinal zero-padded to three digits — the names depend only on the
ordinal and the output directory; the padding sends 1 to 001, 12 to
012 and 123 to 123. -/
theorem C9_paths (scenes : List (Nat × Nat)) (total : Int)
    (out_dir : String) (w : FPath → Bool) (rs : List RRes)
    (hex : RRes.exn ∉ rs) (hne : scenes ≠ []) (j : Nat)
    (hj : j < scenes.length) :
    fmt03 1 = "001" ∧ fmt03 12 = "012" ∧ fmt03 123 = "123" ∧
    ∃ hlt : j < (runOutcomes
        (extract_keyframes scenes true total out_dir w rs).fst).length,
      ((runOutcomes (extract_keyframes scenes true total out_dir w
          rs).fst).get ⟨j, hlt⟩).sceneIdx = j + 1 ∧
      ((runOutcomes (extract_keyframes scenes true total out_dir w
          rs).fst).get ⟨j, hlt⟩).pStart.toString =
        out_dir ++ "/" ++ ("scene_" ++ fmt03 (j + 1) ++ "_start.jpg") ∧
      ((runOutcomes (extract_keyframes scenes true total out_dir w
          rs).fst).get ⟨j, hlt⟩).pMid.toString =
        out_dir ++ "/" ++ ("scene_" ++ fmt03 (j + 1) ++ "_mid.jpg") ∧
      ((runOutcomes (extract_keyframes scenes true total out_dir w
          rs).fst).get ⟨j, hlt⟩).pEnd.toString =
        out_dir ++ "/" ++ ("scene_" ++ fmt03 (j + 1) ++ "_end.jpg") := by
  obtain ⟨s, rest, rfl⟩ : ∃ s rest, scenes = s :: rest := by
    rcases scenes with _ | ⟨s, rest⟩
    · exact absurd rfl hne
    · exact ⟨s, rest, rfl⟩
  obtain ⟨outs, rs2, evs, he, hlen, -, -, -, -, hget⟩ :=
    extractLoop_spec total out_dir w (s :: rest) 1 rs hex
  have hres : (extract_keyframes (s :: rest) true total out_dir w
      rs).fst = .done outs := by
    simp [extract_keyframes, he]
  refine ⟨rfl, rfl, rfl, ?_⟩
  rw [hres]
  simp only [runOutcomes]
  have hlt : j < outs.length := by rw [hlen]; exact hj
  obtain ⟨hsi, hps, hpm, hpe⟩ := hget j hlt
  refine ⟨hlt, ?_, ?_, ?_, ?_⟩
  · rw [hsi, Nat.add_comm]
  · rw [hps, Nat.add_comm]
    rfl
  · rw [hpm, Nat.add_comm]
    rfl
  · rw [hpe, Nat.add_comm]
    rfl

/-- Witness for C9_paths: in a two-scene run the second scene writes to
images/scene_002_start.jpg, images/scene_002_mid.jpg and
images/scene_002_end.jpg. -/
theorem C9_paths_witness :
    fmt03 1 = "001" ∧ fmt03 12 = "012" ∧ fmt03 123 = "123" ∧
    ∃ hlt : 1 < (runOutcomes
        (extract_keyframes [(0, 3), (3, 6)] true 6 "images"
          (fun _ => true) []).fst).length,
      ((runOutcomes (extract_keyframes [(0, 3), (3, 6)] true 6 "images"
          (fun _ => true) []).fst).get ⟨1, hlt⟩).sceneIdx = 2 ∧
      ((runOutcomes (extract_keyframes [(0, 3), (3, 6)] true 6 "images"
          (fun _ => true) []).fst).get ⟨1, hlt⟩).pStart.toString =
        "images" ++ "/" ++ ("scene_" ++ fmt03 2 ++ "_start.jpg") ∧
      ((runOutcomes (extract_keyframes [(0, 3), (3, 6)] true 6 "images"
          (fun _ => true) []).fst).get ⟨1, hlt⟩).pMid.toString =
        "images" ++ "/" ++ ("scene_" ++ fmt03 2 ++ "_mid.jpg") ∧
      ((runOutcomes (extract_keyframes [(0, 3), (3, 6)] true 6 "images"
          (fun _ => true) []).fst).get ⟨1, hlt⟩).pEnd.toString =
        "images" ++ "/" ++ ("scene_" ++ fmt03 2 ++ "_end.jpg") :=
  C9_paths [(0, 3), (3, 6)] 6 "images" (fun _ => true) []
    (by simp) (by simp) 1 (by simp)

theorem save_frame_allErr (total frame_idx : Int) (p : FPath)
    (w : FPath → Bool) {rs : List RRes}
    (h : ∀ r ∈ rs, r = RRes.err) :
    ∃ rs2 evs, save_frame total frame_idx p w rs = .ok (false, rs2, evs) ∧
      (∀ r ∈ rs2, r = RRes.err) ∧
      evs.countP isMkdirEv = 0 ∧ evs.countP isWriteEv = 0 := by
  by_cases h0 : total ≤ 0
  · exact ⟨rs, [], by simp [save_frame, h0], h, rfl, rfl⟩
  · rcases rs with _ | ⟨r1, t⟩
    · refine ⟨[], [.seek (max 0 (min frame_idx (total - 1))), .read, .read],
        by simp [save_frame, nextRead, h0], by simp, ?_, ?_⟩ <;>
        simp [List.countP_cons, isMkdirEv, isWriteEv]
    · have hr1 : r1 = RRes.err := h r1 (List.mem_cons_self _ _)
      subst hr1
      have ht : ∀ r ∈ t, r = RRes.err :=
        fun r hm => h r (List.mem_cons_of_mem _ hm)
      rcases t with _ | ⟨r2, t2⟩
      · refine ⟨[], [.seek (max 0 (min frame_idx (total - 1))), .read, .read],
          by simp [save_frame, nextRead, h0], by simp, ?_, ?_⟩ <;>
          simp [List.countP_cons, isMkdirEv, isWriteEv]
      · have hr2 : r2 = RRes.err := ht r2 (List.mem_cons_self _ _)
        subst hr2
        have ht2 : ∀ r ∈ t2, r = RRes.err :=
          fun r hm => ht r (List.mem_cons_of_mem _ hm)
        refine ⟨t2, [.seek (max 0 (min frame_idx (total - 1))), .read, .read],
          by simp [save_frame, nextRead, h0], ht2, ?_, ?_⟩ <;>
          simp [List.countP_cons, isMkdirEv, isWriteEv]

theorem extractLoop_allErr (total : Int) (out_dir : String)
    (w : FPath → Bool) :
    ∀ (scenes : List (Nat × Nat)) (i : Nat) (rs : List RRes),
      (∀ r ∈ rs, r = RRes.err) →
      ∃ outs rs2 evs,
        extractLoop total out_dir w scenes i rs = .ok (outs, rs2, evs) ∧
        (∀ r ∈ rs2, r = RRes.err) ∧
        evs.countP isMkdirEv = 0 ∧ evs.countP isWriteEv = 0 := by
  intro scenes
  induction scenes with
  | nil =>
    intro i rs h
    exact ⟨[], rs, [], rfl, h, rfl, rfl⟩
  | cons hd rest ih =>
    intro i rs h
    obtain ⟨st, en⟩ := hd
    obtain ⟨rs1, evs1, he1, ht1, hm1, hw1⟩ :=
      save_frame_allErr total (selectRange st en).1
        ⟨out_dir, "scene_" ++ fmt03 i ++ "_start.jpg"⟩ w h
    obtain ⟨rs2, evs2, he2, ht2, hm2, hw2⟩ :=
      save_frame_allErr total (selectRange st en).2.1
        ⟨out_dir, "scene_" ++ fmt03 i ++ "_mid.jpg"⟩ w ht1
    obtain ⟨rs3, evs3, he3, ht3, hm3, hw3⟩ :=
      save_frame_allErr total (selectRange st en).2.2
        ⟨out_dir, "scene_" ++ fmt03 i ++ "_end.jpg"⟩ w ht2
    obtain ⟨outs4, rs4, evs4, he4, ht4, hm4, hw4⟩ := ih (i + 1) rs3 ht3
    refine ⟨⟨i, (selectRange st en).1, (selectRange st en).2.1,
        (selectRange st en).2.2,
        ⟨out_dir, "scene_" ++ fmt03 i ++ "_start.jpg"⟩,
        ⟨out_dir, "scene_" ++ fmt03 i ++ "_mid.jpg"⟩,
        ⟨out_dir, "scene_" ++ fmt03 i ++ "_end.jpg"⟩,
        false, false, false⟩ :: outs4,
      rs4, evs1 ++ evs2 ++ evs3 ++ Ev.diag :: evs4, ?_, ht4, ?_, ?_⟩
    · simp only [extractLoop, he1, he2, he3, he4]
    · simp [List.countP_append, List.countP_cons, hm1, hm2, hm3, hm4,
        isMkdirEv]
    · simp [List.countP_append, List.countP_cons, hw1, hw2, hw3, hw4,
        isWriteEv]

/-- Claim C10: the output directory is only ever created after a
successful read.  A save in which every read fails returns false with a
trace holding no mkdir and no write; a non-positive total frame count
returns false with an empty trace before any seek or read; and a whole
run in whose read stream every entry is a failed read leaves the
filesystem untouched: its trace holds no mkdir and no write events at
all. -/
theorem C10_fs_untouched (total : Int) (out_dir : String)
    (w : FPath → Bool) :
    (∀ (frame_idx : Int) (p : FPath) (rs : List RRes),
      (∀ r ∈ rs, r = RRes.err) →
      ∃ rs2 evs,
        save_frame total frame_idx p w rs = .ok (false, rs2, evs) ∧
        evs.countP isMkdirEv = 0 ∧ evs.countP isWriteEv = 0) ∧
    (∀ (frame_idx : Int) (p : FPath) (rs : List RRes), total ≤ 0 →
      save_frame total frame_idx p w rs = .ok (false, rs, [])) ∧
    (∀ (scenes : List (Nat × Nat)) (openOk : Bool) (rs : List RRes),
      (∀ r ∈ rs, r = RRes.err) →
      ((extract_keyframes scenes openOk total out_dir w rs).snd).countP
        isMkdirEv = 0 ∧
      ((extract_keyframes scenes openOk total out_dir w rs).snd).countP
        isWriteEv = 0) := by
  refine ⟨?_, ?_, ?_⟩
  · intro frame_idx p rs h
    obtain ⟨rs2, evs, he, -, hm, hw⟩ := save_frame_allErr total frame_idx p w h
    exact ⟨rs2, evs, he, hm, hw⟩
  · intro frame_idx p rs h0
    simp [save_frame, h0]
  · intro scenes openOk rs h
    rcases scenes with _ | ⟨s, rest⟩
    · constructor <;> simp [extract_keyframes, List.countP_cons,
        isMkdirEv, isWriteEv]
    · rcases openOk with _ | _
      · constructor <;> simp [extract_keyframes, List.countP_cons,
          isMkdirEv, isWriteEv]
      · obtain ⟨outs, rs2, evs, he, -, hm, hw⟩ :=
          extractLoop_allErr total out_dir w (s :: rest) 1 rs h
        constructor <;>
          simp [extract_keyframes, he, List.countP_cons, List.countP_append,
            hm, hw, isMkdirEv, isWriteEv]

/-- Witness for C10_fs_untouched: a run over two scenes whose every
read fails (two explicit failed reads, then the exhausted stream) has
no mkdir and no write in its trace, and a 0-frame save fails with an
empty trace. -/
theorem C10_fs_untouched_witness :
    (((extract_keyframes [(0, 2), (2, 4)] true 4 "images"
        (fun _ => true) [.err, .err]).snd).countP isMkdirEv = 0 ∧
     ((extract_keyframes [(0, 2), (2, 4)] true 4 "images"
        (fun _ => true) [.err, .err]).snd).countP isWriteEv = 0) ∧
    save_frame 0 5 ⟨"images", "d.jpg"⟩ (fun _ => true) [.ok] =
      .ok (false, [.ok], []) := by
  have h := C10_fs_untouched 4 "images" (fun _ => true)
  have h0 := C10_fs_untouched 0 "images" (fun _ => true)
  refine ⟨h.2.2 [(0, 2), (2, 4)] true [.err, .err] ?_,
    h0.2.1 5 ⟨"images", "d.jpg"⟩ [.ok] (by norm_num)⟩
  intro r hr
  simpa using hr
